import Mathlib

/-!
Verification of the csis279_server forum backend (NestJS + Prisma).

The development shallowly embeds the service and controller layer of the
repository: each TypeScript service method becomes a Lean function over an
explicit database state (tables as lists of rows), each thrown NestJS
exception becomes a constructor of an error type, and the try/catch blocks
of the source are reproduced by an explicit handler that - exactly like the
source - replaces every error raised in the body, including the NotFound and
Unauthorized exceptions thrown by the body itself, with the exception of the
catch clause.  External collaborators (bcrypt, the JWT library, the clock)
enter as function parameters.
-/

namespace CSIS279

/-- Error taxonomy: the four NestJS exception classes the repository throws,
with the message given to the constructor. -/
inductive HttpError where
  | badRequest (msg : String)
  | unauthorized (msg : String)
  | notFound (msg : String)
  | internalError (msg : String)
  deriving DecidableEq, Repr

instance {ε α : Type} [DecidableEq ε] [DecidableEq α] : DecidableEq (Except ε α) := fun x y =>
  match x, y with
  | .ok a, .ok b => decidable_of_iff (a = b) (by simp)
  | .error e, .error f => decidable_of_iff (e = f) (by simp)
  | .ok _, .error _ => isFalse (by simp)
  | .error _, .ok _ => isFalse (by simp)

/-- Semantics of a try/catch block whose catch clause rethrows a fixed
exception: every error from the body is replaced by the exception of
the catch clause. -/
def catchAll {α : Type} (body : Except HttpError α) (e : HttpError) : Except HttpError α :=
  match body with
  | .ok a => .ok a
  | .error _ => .error e

/-- User table row (schema: User). Password holds the stored bcrypt hash. -/
structure UserRow where
  UserID : Nat
  FirstName : String
  LastName : String
  Email : String
  Password : String
  deriving DecidableEq, Repr

/-- Topics table row. CreatedAt is the epoch value of the DATE column, the
number returned by CreatedAt.getTime() in the sort comparators. -/
structure TopicRow where
  TopicID : Nat
  Title : String
  Content : String
  CreatedAt : Int
  CreatorID : Nat
  LikesNb : Int
  deriving DecidableEq, Repr

/-- Questions table row, structurally parallel to Topics. -/
structure QuestionRow where
  QuestionID : Nat
  Title : String
  Content : String
  CreatedAt : Int
  CreatorID : Nat
  LikesNb : Int
  deriving DecidableEq, Repr

/-- Events table row. The schema has a Date column (the scheduled date of the
event) and no CreatedAt column. -/
structure EventRow where
  EventID : Nat
  Title : String
  Description : String
  Date : Int
  Location : String
  CreatorID : Nat
  LikesNB : Int
  deriving DecidableEq, Repr

/-- Replies table row: the two target columns are nullable. -/
structure ReplyRow where
  ReplyID : Nat
  Content : String
  CreatedAt : Int
  CreatorID : Nat
  QuestionID : Option Nat
  TopicID : Option Nat
  LikesNB : Int
  deriving DecidableEq, Repr

/-- Ordering induced by the JS comparator (a, b) =&gt; key(b) - key(a):
descending by the key. -/
def descBy {α β : Type} [LinearOrder β] (f : α → β) : α → α → Prop :=
  fun a b => f b ≤ f a

/-- Ordering induced by the JS comparator (a, b) =&gt; key(a) - key(b):
ascending by the key. -/
def ascBy {α β : Type} [LinearOrder β] (f : α → β) : α → α → Prop :=
  fun a b => f a ≤ f b

instance {α β : Type} [LinearOrder β] (f : α → β) : DecidableRel (descBy f) :=
  fun a b => inferInstanceAs (Decidable (f b ≤ f a))

instance {α β : Type} [LinearOrder β] (f : α → β) : DecidableRel (ascBy f) :=
  fun a b => inferInstanceAs (Decidable (f a ≤ f b))

instance {α β : Type} [LinearOrder β] (f : α → β) : IsTotal α (descBy f) :=
  ⟨fun a b => le_total (f b) (f a)⟩

instance {α β : Type} [LinearOrder β] (f : α → β) : IsTotal α (ascBy f) :=
  ⟨fun a b => le_total (f a) (f b)⟩

instance {α β : Type} [LinearOrder β] (f : α → β) : IsTrans α (descBy f) :=
  ⟨fun _ _ _ h1 h2 => le_trans h2 h1⟩

instance {α β : Type} [LinearOrder β] (f : α → β) : IsTrans α (ascBy f) :=
  ⟨fun _ _ _ h1 h2 => le_trans h1 h2⟩

/-- Case-insensitive substring test: the Prisma fetch filter
where Title contains search with insensitive mode. -/
def titleContains (hay needle : String) : Bool :=
  decide ((needle.toList.map Char.toLower) <:+: (hay.toList.map Char.toLower))

/-- Candidate fetch of DiscussionsService.filtered: findMany restricted to
rows whose Title contains the search string case-insensitively. -/
def topicsFetch (search : String) (table : List TopicRow) : List TopicRow :=
  table.filter (fun t => titleContains t.Title search)

/-- Candidate fetch of QuestionsService.filtered. -/
def questionsFetch (search : String) (table : List QuestionRow) : List QuestionRow :=
  table.filter (fun t => titleContains t.Title search)

/-- Candidate fetch of EventsService.filtered. -/
def eventsFetch (search : String) (table : List EventRow) : List EventRow :=
  table.filter (fun t => titleContains t.Title search)

/-- Candidate fetch of RepliesService.filteredForTopic: findMany restricted
to the replies of one topic. -/
def repliesFetchForTopic (TopicID : Nat) (table : List ReplyRow) : List ReplyRow :=
  table.filter (fun r => r.TopicID == some TopicID)

/-- Candidate fetch of RepliesService.filteredForQuestion. -/
def repliesFetchForQuestion (QuestionID : Nat) (table : List ReplyRow) : List ReplyRow :=
  table.filter (fun r => r.QuestionID == some QuestionID)

/-- DiscussionsService.filtered: fetch the candidate topics, then run the
five-way switch on q, sorting in memory.  The case for all performs no sort,
and an unmatched q (impossible past the controller guard) falls through with
no sort as well.  localeCompare is modelled by the lexicographic order on
strings. -/
def DiscussionsService.filtered (q search : String) (table : List TopicRow) : List TopicRow :=
  let alltopics := topicsFetch search table
  if q = "popular" then List.insertionSort (descBy TopicRow.LikesNb) alltopics
  else if q = "recent" then List.insertionSort (descBy TopicRow.CreatedAt) alltopics
  else if q = "name" then List.insertionSort (ascBy TopicRow.Title) alltopics
  else if q = "old" then List.insertionSort (ascBy TopicRow.CreatedAt) alltopics
  else alltopics

/-- QuestionsService.filtered, same switch over the Questions table. -/
def QuestionsService.filtered (q search : String) (table : List QuestionRow) : List QuestionRow :=
  let allquestions := questionsFetch search table
  if q = "popular" then List.insertionSort (descBy QuestionRow.LikesNb) allquestions
  else if q = "recent" then List.insertionSort (descBy QuestionRow.CreatedAt) allquestions
  else if q = "name" then List.insertionSort (ascBy QuestionRow.Title) allquestions
  else if q = "old" then List.insertionSort (ascBy QuestionRow.CreatedAt) allquestions
  else allquestions

/-- EventsService.filtered: the recent and old cases compare Date.getTime(),
the scheduled date of the event, because the Events schema has no creation
timestamp. -/
def EventsService.filtered (q search : String) (table : List EventRow) : List EventRow :=
  let allevents := eventsFetch search table
  if q = "popular" then List.insertionSort (descBy EventRow.LikesNB) allevents
  else if q = "recent" then List.insertionSort (descBy EventRow.Date) allevents
  else if q = "name" then List.insertionSort (ascBy EventRow.Title) allevents
  else if q = "old" then List.insertionSort (ascBy EventRow.Date) allevents
  else allevents

/-- RepliesService.filteredForTopic: replies have no title, so the name case
compares Content. -/
def RepliesService.filteredForTopic (q : String) (TopicID : Nat) (table : List ReplyRow) : List ReplyRow :=
  let allReplies := repliesFetchForTopic TopicID table
  if q = "popular" then List.insertionSort (descBy ReplyRow.LikesNB) allReplies
  else if q = "recent" then List.insertionSort (descBy ReplyRow.CreatedAt) allReplies
  else if q = "name" then List.insertionSort (ascBy ReplyRow.Content) allReplies
  else if q = "old" then List.insertionSort (ascBy ReplyRow.CreatedAt) allReplies
  else allReplies

/-- RepliesService.filteredForQuestion, same switch scoped by QuestionID. -/
def RepliesService.filteredForQuestion (q : String) (QuestionID : Nat) (table : List ReplyRow) : List ReplyRow :=
  let allReplies := repliesFetchForQuestion QuestionID table
  if q = "popular" then List.insertionSort (descBy ReplyRow.LikesNB) allReplies
  else if q = "recent" then List.insertionSort (descBy ReplyRow.CreatedAt) allReplies
  else if q = "name" then List.insertionSort (ascBy ReplyRow.Content) allReplies
  else if q = "old" then List.insertionSort (ascBy ReplyRow.CreatedAt) allReplies
  else allReplies

/-- Guard of every filter endpoint: q must be one of the five enumerated
values. -/
def validFilterQ (q : String) : Prop :=
  q = "all" ∨ q = "popular" ∨ q = "recent" ∨ q = "name" ∨ q = "old"

instance (q : String) : Decidable (validFilterQ q) := by
  unfold validFilterQ; infer_instance

/-- DiscussionsController.filtered: forward to the service when q is one of
the five accepted values, else throw BadRequest. -/
def DiscussionsController.filtered (q search : String) (table : List TopicRow) : Except HttpError (List TopicRow) :=
  if validFilterQ q then .ok (DiscussionsService.filtered q search table)
  else .error (.badRequest "Invalid Query Parameter")

/-- QuestionsController.filtered, same guard. -/
def QuestionsController.filtered (q search : String) (table : List QuestionRow) : Except HttpError (List QuestionRow) :=
  if validFilterQ q then .ok (QuestionsService.filtered q search table)
  else .error (.badRequest "Invalid Query Parameter")

/-- EventsController.filtered, same guard. -/
def EventsController.filtered (q search : String) (table : List EventRow) : Except HttpError (List EventRow) :=
  if validFilterQ q then .ok (EventsService.filtered q search table)
  else .error (.badRequest "Invalid Query Parameter")

/-- RepliesController.filteredForTopic, same guard. -/
def RepliesController.filteredForTopic (q : String) (TopicID : Nat) (table : List ReplyRow) : Except HttpError (List ReplyRow) :=
  if validFilterQ q then .ok (RepliesService.filteredForTopic q TopicID table)
  else .error (.badRequest "Invalid Query Parameter")

/-- RepliesController.filteredForQuestion, same guard. -/
def RepliesController.filteredForQuestion (q : String) (QuestionID : Nat) (table : List ReplyRow) : Except HttpError (List ReplyRow) :=
  if validFilterQ q then .ok (RepliesService.filteredForQuestion q QuestionID table)
  else .error (.badRequest "Invalid Query Parameter")

/-- Falsiness of an optional string field of a JSON request body: the
check with the negation operator succeeds when the field is absent or the
empty string. -/
def falsyStr (s : Option String) : Bool :=
  match s with
  | none => true
  | some t => t == ""

/-- Falsiness of an optional numeric field: absent or zero. -/
def falsyNum (n : Option Nat) : Bool :=
  match n with
  | none => true
  | some k => k == 0

/-- Falsiness of an optional timestamp field. Date strings of the request
bodies are modelled by their epoch value. -/
def falsyTime (n : Option Int) : Bool :=
  match n with
  | none => true
  | some k => k == 0

/-- Body of POST /auth/signup. -/
structure CreateUserDto where
  FirstName : Option String
  LastName : Option String
  Email : Option String
  Password : Option String
  deriving DecidableEq, Repr

/-- prisma user.create from the spread of the signup body with the hashed
password.  The User schema declares FirstName and LastName NOT NULL with no
default, so the create fails (none) when either field is absent from the
body; an empty string is a provided value and is stored. -/
def usersCreate (newId : Nat) (FirstName LastName : Option String)
    (Email Password : String) : Option UserRow :=
  match FirstName, LastName with
  | some f, some l =>
    some { UserID := newId, FirstName := f, LastName := l, Email := Email, Password := Password }
  | _, _ => none

/-- AuthService.signup: reject when Email or Password is falsy, then look the
email up and reject when taken, then hash and create; the try/catch around
the create converts its failure into InternalServerErrorException.  The
bcrypt hash enters as the parameter hashFn, and newId stands for the serial
key the database assigns. -/
def AuthService.signup (hashFn : String → String) (users : List UserRow) (newId : Nat)
    (dto : CreateUserDto) : Except HttpError UserRow :=
  if falsyStr dto.Email || falsyStr dto.Password then
    .error (.badRequest "Missing Data")
  else
    match users.find? (fun u => u.Email == dto.Email.getD "") with
    | some _ => .error (.unauthorized "Email exists")
    | none =>
      catchAll
        (match usersCreate newId dto.FirstName dto.LastName (dto.Email.getD "")
            (hashFn (dto.Password.getD "")) with
         | none => .error (.internalError "create rejected")
         | some user => .ok user)
        (.internalError "Internal Server Error")

/-- Payload and options handed to jwtService.signAsync on a successful login:
sub and email are the token payload, and expiresIn is the value of the
expiresIn option. -/
structure SignArgs where
  sub : Nat
  email : String
  expiresIn : Int
  deriving DecidableEq, Repr

/-- AuthService.login: the missing-data check runs before the user lookup,
an unknown email is NotFound, and a failed bcrypt comparison is Unauthorized.
compareFn is the bcrypt compare, returning none when the library call throws;
now is Date.now() and duration the parsed JWT_DURATION, and the source adds
them and passes the sum as expiresIn. -/
def AuthService.login (compareFn : String → String → Option Bool) (now duration : Int)
    (users : List UserRow) (Email Password : Option String) :
    Except HttpError (SignArgs × UserRow) :=
  if falsyStr Email || falsyStr Password then
    .error (.badRequest "Missing Data")
  else
    match users.find? (fun u => u.Email == Email.getD "") with
    | none => .error (.notFound "User does not exist")
    | some user =>
      match compareFn (Password.getD "") user.Password with
      | none => .error (.internalError "Internal Server Error")
      | some false => .error (.unauthorized "Cannot login with these credentials")
      | some true =>
        .ok ({ sub := user.UserID, email := user.Email, expiresIn := now + duration }, user)

/-- Claims decoded from a verified token. -/
structure JwtClaims where
  sub : Nat
  deriving DecidableEq, Repr

/-- Bearer token extraction of JwtMiddleware.use: the second word of the
Authorization header; a missing header, a header without a second word and an
empty second word are all falsy. -/
def extractToken (authHeader : Option String) : Option String :=
  match authHeader with
  | none => none
  | some h =>
    match (h.toList.splitOn ' ').get? 1 with
    | none => none
    | some t => if t.isEmpty then none else some (String.mk t)

/-- JwtMiddleware.use: missing token is rejected up front; the try block
verifies the token, looks the decoded subject up and throws Unauthorized with
message User does not exist. when no user matches - but the catch clause
replaces every error raised in the try block, that one included, with
Unauthorized Invalid token.  The verification of signature and expiry enters
as the parameter verify. -/
def JwtMiddleware.use (verify : String → Except String JwtClaims) (users : List UserRow)
    (authHeader : Option String) : Except HttpError UserRow :=
  match extractToken authHeader with
  | none => .error (.unauthorized "No token provided")
  | some token =>
    catchAll
      (match verify token with
       | .error e => .error (.unauthorized e)
       | .ok claims =>
         match users.find? (fun u => u.UserID == claims.sub) with
         | none => .error (.unauthorized "User does not exist.")
         | some user => .ok user)
      (.unauthorized "Invalid token")

/-- DiscussionsService.delete: findUnique, then a NotFound throw inside the
try block when the topic is absent, then the delete; the catch clause
converts every error of the body into InternalServerErrorException. -/
def DiscussionsService.delete (table : List TopicRow) (TopicID : Nat) :
    Except HttpError (List TopicRow) :=
  catchAll
    (match table.find? (fun t => t.TopicID == TopicID) with
     | none => .error (.notFound "Topic not found")
     | some _ => .ok (table.filter (fun t => t.TopicID != TopicID)))
    (.internalError "Internal Server Error")

/-- QuestionsService.delete, same structure as the topic delete. -/
def QuestionsService.delete (table : List QuestionRow) (QuestionID : Nat) :
    Except HttpError (List QuestionRow) :=
  catchAll
    (match table.find? (fun t => t.QuestionID == QuestionID) with
     | none => .error (.notFound "Question not found")
     | some _ => .ok (table.filter (fun t => t.QuestionID != QuestionID)))
    (.internalError "Internal Server Error")

/-- EventsService.delete, same structure. -/
def EventsService.delete (table : List EventRow) (EventID : Nat) :
    Except HttpError (List EventRow) :=
  catchAll
    (match table.find? (fun t => t.EventID == EventID) with
     | none => .error (.notFound "Event not found")
     | some _ => .ok (table.filter (fun t => t.EventID != EventID)))
    (.internalError "Internal Server Error")

/-- RepliesService.delete, same structure. -/
def RepliesService.delete (table : List ReplyRow) (ReplyID : Nat) :
    Except HttpError (List ReplyRow) :=
  catchAll
    (match table.find? (fun t => t.ReplyID == ReplyID) with
     | none => .error (.notFound "Reply not found")
     | some _ => .ok (table.filter (fun t => t.ReplyID != ReplyID)))
    (.internalError "Internal Server Error")

/-- AuthService.deleteUser, same structure over the User table. -/
def AuthService.deleteUser (table : List UserRow) (UserID : Nat) :
    Except HttpError (List UserRow) :=
  catchAll
    (match table.find? (fun u => u.UserID == UserID) with
     | none => .error (.notFound "User not found")
     | some _ => .ok (table.filter (fun u => u.UserID != UserID)))
    (.internalError "Internal Server Error")

/-- Likes table row: UserID plus at most one non-null target column. -/
structure LikeRow where
  UserID : Nat
  EventID : Option Nat
  TopicID : Option Nat
  QuestionID : Option Nat
  ReplyID : Option Nat
  deriving DecidableEq, Repr

/-- Database state for the like and unlike interactions. -/
structure DbState where
  topics : List TopicRow
  questions : List QuestionRow
  likes : List LikeRow
  deriving DecidableEq, Repr

/-- Match predicate of the unique pair constraint on topic likes: the row
joins the given topic and user. -/
def isTopicLike (TopicID UserID : Nat) (r : LikeRow) : Bool :=
  r.TopicID == some TopicID && r.UserID == UserID

/-- Match predicate of the unique pair constraint on question likes. -/
def isQuestionLike (QuestionID UserID : Nat) (r : LikeRow) : Bool :=
  r.QuestionID == some QuestionID && r.UserID == UserID

/-- prisma topics.update with a LikesNb increment of d: throws (none) when no
row matches the unique where clause, or on an injected transient database
failure. -/
def topicsIncrement (failInject : Bool) (topics : List TopicRow) (TopicID : Nat) (d : Int) :
    Option (List TopicRow) :=
  if failInject then none
  else if topics.any (fun t => t.TopicID == TopicID) then
    some (topics.map (fun t => if t.TopicID == TopicID then { t with LikesNb := t.LikesNb + d } else t))
  else none

/-- prisma questions.update with a LikesNb increment of d. -/
def questionsIncrement (failInject : Bool) (questions : List QuestionRow) (QuestionID : Nat) (d : Int) :
    Option (List QuestionRow) :=
  if failInject then none
  else if questions.any (fun t => t.QuestionID == QuestionID) then
    some (questions.map (fun t => if t.QuestionID == QuestionID then { t with LikesNb := t.LikesNb + d } else t))
  else none

/-- Join row written by likes.create with data TopicID, UserID: every other
target column stays null. -/
def likeRowTopic (TopicID UserID : Nat) : LikeRow :=
  { UserID := UserID, EventID := none, TopicID := some TopicID,
    QuestionID := none, ReplyID := none }

/-- Join row written by likes.create with data QuestionID, UserID. -/
def likeRowQuestion (QuestionID UserID : Nat) : LikeRow :=
  { UserID := UserID, EventID := none, TopicID := none,
    QuestionID := some QuestionID, ReplyID := none }

/-- prisma likes.create with data TopicID, UserID: inserts a row whose other
target columns are null; throws (none) when the unique pair constraint is
violated, or on an injected transient failure. -/
def likesCreateTopic (failInject : Bool) (likes : List LikeRow) (TopicID UserID : Nat) :
    Option (List LikeRow) :=
  if failInject then none
  else if likes.any (isTopicLike TopicID UserID) then none
  else some (likes ++ [likeRowTopic TopicID UserID])

/-- prisma likes.create with data QuestionID, UserID. -/
def likesCreateQuestion (failInject : Bool) (likes : List LikeRow) (QuestionID UserID : Nat) :
    Option (List LikeRow) :=
  if failInject then none
  else if likes.any (isQuestionLike QuestionID UserID) then none
  else some (likes ++ [likeRowQuestion QuestionID UserID])

/-- prisma likes.delete keyed by the unique pair (TopicID, UserID): removes
the matching row, throwing (none) when no row matches. -/
def likesDeleteTopic (likes : List LikeRow) (TopicID UserID : Nat) : Option (List LikeRow) :=
  match likes with
  | [] => none
  | r :: rest =>
    if isTopicLike TopicID UserID r then some rest
    else (likesDeleteTopic rest TopicID UserID).map (fun l => r :: l)

/-- DiscussionsService.likeTopic over the explicit state: increment the
denormalized counter first, insert the join row second; any failure of either
write is caught and surfaced as InternalServerErrorException, and the writes
already applied stay in place.  fU and fI inject transient failures into the
two writes. -/
def DiscussionsService.likeTopic (fU fI : Bool) (st : DbState) (TopicID UserID : Nat) :
    Except HttpError Unit × DbState :=
  match topicsIncrement fU st.topics TopicID 1 with
  | none => (.error (.internalError "Internal Server Error"), st)
  | some topics1 =>
    match likesCreateTopic fI st.likes TopicID UserID with
    | none => (.error (.internalError "Internal Server Error"), { st with topics := topics1 })
    | some likes1 => (.ok (), { st with topics := topics1, likes := likes1 })

/-- DiscussionsService.unlikeTopic: decrement the counter first, delete the
join row keyed by the unique pair second, with the same catch-all. -/
def DiscussionsService.unlikeTopic (fU fD : Bool) (st : DbState) (TopicID UserID : Nat) :
    Except HttpError Unit × DbState :=
  match topicsIncrement fU st.topics TopicID (-1) with
  | none => (.error (.internalError "Internal Server Error"), st)
  | some topics1 =>
    if fD then (.error (.internalError "Internal Server Error"), { st with topics := topics1 })
    else
      match likesDeleteTopic st.likes TopicID UserID with
      | none => (.error (.internalError "Internal Server Error"), { st with topics := topics1 })
      | some likes1 => (.ok (), { st with topics := topics1, likes := likes1 })

/-- QuestionsService.likeQuestion, the same two writes over the Questions
table. -/
def QuestionsService.likeQuestion (fU fI : Bool) (st : DbState) (QuestionID UserID : Nat) :
    Except HttpError Unit × DbState :=
  match questionsIncrement fU st.questions QuestionID 1 with
  | none => (.error (.internalError "Internal Server Error"), st)
  | some questions1 =>
    match likesCreateQuestion fI st.likes QuestionID UserID with
    | none => (.error (.internalError "Internal Server Error"), { st with questions := questions1 })
    | some likes1 => (.ok (), { st with questions := questions1, likes := likes1 })

/-- Body of the reply creation endpoints. -/
structure CreateReplyDto where
  Content : Option String
  CreatedAt : Option Int
  CreatorID : Option Nat
  TargetID : Option Nat
  deriving DecidableEq, Repr

/-- RepliesService.createForTopic: validate the four mandatory fields, then
insert a row whose TopicID is the target and whose QuestionID stays null.
newId stands for the serial key the database assigns. -/
def RepliesService.createForTopic (dto : CreateReplyDto) (table : List ReplyRow) (newId : Nat) :
    Except HttpError (ReplyRow × List ReplyRow) :=
  if falsyTime dto.CreatedAt || falsyNum dto.CreatorID || falsyStr dto.Content || falsyNum dto.TargetID then
    .error (.badRequest "Missing Data")
  else
    let row : ReplyRow :=
      { ReplyID := newId, Content := dto.Content.getD "", CreatedAt := dto.CreatedAt.getD 0,
        CreatorID := dto.CreatorID.getD 0, QuestionID := none,
        TopicID := some (dto.TargetID.getD 0), LikesNB := 0 }
    .ok (row, table ++ [row])

/-- RepliesService.createForQuestion: same validation, the QuestionID of the row
is the target and its TopicID stays null. -/
def RepliesService.createForQuestion (dto : CreateReplyDto) (table : List ReplyRow) (newId : Nat) :
    Except HttpError (ReplyRow × List ReplyRow) :=
  if falsyTime dto.CreatedAt || falsyNum dto.CreatorID || falsyStr dto.Content || falsyNum dto.TargetID then
    .error (.badRequest "Missing Data")
  else
    let row : ReplyRow :=
      { ReplyID := newId, Content := dto.Content.getD "", CreatedAt := dto.CreatedAt.getD 0,
        CreatorID := dto.CreatorID.getD 0, QuestionID := some (dto.TargetID.getD 0),
        TopicID := none, LikesNB := 0 }
    .ok (row, table ++ [row])

/-- Event row paired with a model-level creation timestamp.  The Events
schema has no creation timestamp column, so the ordering key named by the
spec for the recent and old modes exists only at this level; no code path
reads it. -/
structure TimedEvent where
  row : EventRow
  CreatedAt : Int
  deriving DecidableEq, Repr

/-- Stated from the spec wording: the expected output of the recent mode,
the fetched items in descending order of creation timestamp.  Compared
against the source-derived EventsService.filtered. -/
def specRecentByCreation (l : List TimedEvent) : List TimedEvent :=
  List.insertionSort (descBy TimedEvent.CreatedAt) l

/-- Sample event scheduled late but created first. -/
def eventSampleA : EventRow :=
  { EventID := 1, Title := "A", Description := "", Date := 100, Location := "",
    CreatorID := 1, LikesNB := 0 }

/-- Sample event scheduled early but created second. -/
def eventSampleB : EventRow :=
  { EventID := 2, Title := "B", Description := "", Date := 50, Location := "",
    CreatorID := 1, LikesNB := 0 }

/-- Sample topic row for witnesses. -/
def topicSample : TopicRow :=
  { TopicID := 1, Title := "T", Content := "C", CreatedAt := 0, CreatorID := 1, LikesNb := 0 }

/-- Sample question row for witnesses. -/
def questionSample : QuestionRow :=
  { QuestionID := 1, Title := "Q", Content := "C", CreatedAt := 0, CreatorID := 1, LikesNb := 0 }

/-- Sample database state for witnesses: one topic, one question, no likes. -/
def sampleDb : DbState :=
  { topics := [topicSample], questions := [questionSample], likes := [] }

/-- Sample user row for witnesses. -/
def userSample : UserRow :=
  { UserID := 3, FirstName := "F", LastName := "L", Email := "a@b.c", Password := "h" }

/-- Sample reply-creation body for witnesses. -/
def replyDtoSample : CreateReplyDto :=
  { Content := some "c", CreatedAt := some 5, CreatorID := some 1, TargetID := some 2 }

/-- Row created by createForTopic from replyDtoSample with serial key 1. -/
def replyRowTopicSample : ReplyRow :=
  { ReplyID := 1, Content := "c", CreatedAt := 5, CreatorID := 1, QuestionID := none,
    TopicID := some 2, LikesNB := 0 }

/-- Row created by createForQuestion from replyDtoSample with serial key 1. -/
def replyRowQuestionSample : ReplyRow :=
  { ReplyID := 1, Content := "c", CreatedAt := 5, CreatorID := 1, QuestionID := some 2,
    TopicID := none, LikesNB := 0 }

/-- C1: the claim fails in the code.  In every one of the five delete
methods the NotFound throw sits inside the try block, so the generic catch
clause converts it into InternalServerErrorException: deleting an ID absent
from the store yields InternalError, never the NotFound promised by the
claim and by the JSDoc of each method. -/
theorem C1_delete_nonexistent_internal_error
    (topics : List TopicRow) (questions : List QuestionRow) (events : List EventRow)
    (replies : List ReplyRow) (users : List UserRow) (id : Nat) :
    (topics.find? (fun t => t.TopicID == id) = none →
       DiscussionsService.delete topics id = .error (.internalError "Internal Server Error"))
    ∧ (questions.find? (fun t => t.QuestionID == id) = none →
       QuestionsService.delete questions id = .error (.internalError "Internal Server Error"))
    ∧ (events.find? (fun t => t.EventID == id) = none →
       EventsService.delete events id = .error (.internalError "Internal Server Error"))
    ∧ (replies.find? (fun t => t.ReplyID == id) = none →
       RepliesService.delete replies id = .error (.internalError "Internal Server Error"))
    ∧ (users.find? (fun u => u.UserID == id) = none →
       AuthService.deleteUser users id = .error (.internalError "Internal Server Error")) := by
  refine ⟨fun h => ?_, fun h => ?_, fun h => ?_, fun h => ?_, fun h => ?_⟩ <;>
    simp [DiscussionsService.delete, QuestionsService.delete, EventsService.delete,
      RepliesService.delete, AuthService.deleteUser, catchAll, h]

/-- Witness for C1: the failing input, each store empty and ID 1. -/
theorem C1_delete_nonexistent_internal_error_witness :
    DiscussionsService.delete [] 1 = .error (.internalError "Internal Server Error")
    ∧ QuestionsService.delete [] 1 = .error (.internalError "Internal Server Error")
    ∧ EventsService.delete [] 1 = .error (.internalError "Internal Server Error")
    ∧ RepliesService.delete [] 1 = .error (.internalError "Internal Server Error")
    ∧ AuthService.deleteUser [] 1 = .error (.internalError "Internal Server Error") :=
  ⟨(C1_delete_nonexistent_internal_error [] [] [] [] [] 1).1 rfl,
   (C1_delete_nonexistent_internal_error [] [] [] [] [] 1).2.1 rfl,
   (C1_delete_nonexistent_internal_error [] [] [] [] [] 1).2.2.1 rfl,
   (C1_delete_nonexistent_internal_error [] [] [] [] [] 1).2.2.2.1 rfl,
   (C1_delete_nonexistent_internal_error [] [] [] [] [] 1).2.2.2.2 rfl⟩

/-- C3: the claim fails in the code.  A token that verifies (here: a
verification stub that always succeeds with subject 7) whose subject matches
no user is rejected with Unauthorized, but the message is Invalid token: the
Unauthorized User does not exist. thrown in the try block is caught by the
catch clause and replaced. -/
theorem C3_unknown_subject_gets_invalid_token :
    JwtMiddleware.use (fun _ => .ok { sub := 7 }) [] (some "Bearer t0")
      = .error (.unauthorized "Invalid token")
    ∧ JwtMiddleware.use (fun _ => .ok { sub := 7 }) [] (some "Bearer t0")
      ≠ .error (.unauthorized "User does not exist")
    ∧ JwtMiddleware.use (fun _ => .ok { sub := 7 }) [] (some "Bearer t0")
      ≠ .error (.unauthorized "User does not exist.") := by
  refine ⟨?_, ?_, ?_⟩ <;> decide

/-- C7: for the filter endpoint of every resource and every query value q, the
request fails with BadRequest exactly when q is outside the five enumerated
values, and otherwise it is forwarded to the filter/sort resolver. -/
theorem C7_filter_guard (q search : String) (TopicID QuestionID : Nat)
    (topics : List TopicRow) (questions : List QuestionRow)
    (events : List EventRow) (replies : List ReplyRow) :
    (DiscussionsController.filtered q search topics
        = .error (.badRequest "Invalid Query Parameter") ↔ ¬ validFilterQ q)
    ∧ (validFilterQ q → DiscussionsController.filtered q search topics
        = .ok (DiscussionsService.filtered q search topics))
    ∧ (QuestionsController.filtered q search questions
        = .error (.badRequest "Invalid Query Parameter") ↔ ¬ validFilterQ q)
    ∧ (validFilterQ q → QuestionsController.filtered q search questions
        = .ok (QuestionsService.filtered q search questions))
    ∧ (EventsController.filtered q search events
        = .error (.badRequest "Invalid Query Parameter") ↔ ¬ validFilterQ q)
    ∧ (validFilterQ q → EventsController.filtered q search events
        = .ok (EventsService.filtered q search events))
    ∧ (RepliesController.filteredForTopic q TopicID replies
        = .error (.badRequest "Invalid Query Parameter") ↔ ¬ validFilterQ q)
    ∧ (validFilterQ q → RepliesController.filteredForTopic q TopicID replies
        = .ok (RepliesService.filteredForTopic q TopicID replies))
    ∧ (RepliesController.filteredForQuestion q QuestionID replies
        = .error (.badRequest "Invalid Query Parameter") ↔ ¬ validFilterQ q)
    ∧ (validFilterQ q → RepliesController.filteredForQuestion q QuestionID replies
        = .ok (RepliesService.filteredForQuestion q QuestionID replies)) := by
  by_cases h : validFilterQ q <;>
    simp [DiscussionsController.filtered, QuestionsController.filtered,
      EventsController.filtered, RepliesController.filteredForTopic,
      RepliesController.filteredForQuestion, h]

/-- Witness for C7: popular is forwarded, foo is rejected. -/
theorem C7_filter_guard_witness :
    QuestionsController.filtered "popular" "" []
      = .ok (QuestionsService.filtered "popular" "" [])
    ∧ DiscussionsController.filtered "foo" "" []
      = .error (.badRequest "Invalid Query Parameter") :=
  ⟨(C7_filter_guard "popular" "" 0 0 [] [] [] []).2.2.2.1 (by decide),
   (C7_filter_guard "foo" "" 0 0 [] [] [] []).1.mpr (by decide)⟩

/-- C2 counterexample: for the Event kind the claim fails.  Two events, the
first created earlier (model timestamp 0) but scheduled later (Date 100),
the second created later (timestamp 1) but scheduled earlier (Date 50).  The
source sorts recent by Date, returning the first event first; the spec-side
ordering by creation timestamp demands the second event first. -/
theorem C2_events_recent_not_by_creation :
    EventsService.filtered "recent" "" [eventSampleA, eventSampleB]
      ≠ (specRecentByCreation [⟨eventSampleA, 0⟩, ⟨eventSampleB, 1⟩]).map TimedEvent.row := by
  decide

/-- C2 (amended): for Topics, Questions and Replies, popular returns the
fetched candidates in descending like-counter order, recent descending and
old ascending by creation timestamp, and name ascending by the title text
(Content for replies, which have no title); for Events the recent and old
modes order by the Date column, the scheduled date of the event, since the
Events schema has no creation timestamp; q = all returns the fetched order
unchanged.  Each sorted mode returns a permutation of the fetch, sorted by
its key. -/
theorem C2_filtered_orderings (s : String) (TopicID QuestionID : Nat)
    (topics : List TopicRow) (questions : List QuestionRow)
    (events : List EventRow) (replies : List ReplyRow) :
    DiscussionsService.filtered "all" s topics = topicsFetch s topics
    ∧ (DiscussionsService.filtered "popular" s topics).Sorted (descBy TopicRow.LikesNb)
    ∧ List.Perm (DiscussionsService.filtered "popular" s topics) (topicsFetch s topics)
    ∧ (DiscussionsService.filtered "recent" s topics).Sorted (descBy TopicRow.CreatedAt)
    ∧ List.Perm (DiscussionsService.filtered "recent" s topics) (topicsFetch s topics)
    ∧ (DiscussionsService.filtered "name" s topics).Sorted (ascBy TopicRow.Title)
    ∧ List.Perm (DiscussionsService.filtered "name" s topics) (topicsFetch s topics)
    ∧ (DiscussionsService.filtered "old" s topics).Sorted (ascBy TopicRow.CreatedAt)
    ∧ List.Perm (DiscussionsService.filtered "old" s topics) (topicsFetch s topics)
    ∧ QuestionsService.filtered "all" s questions = questionsFetch s questions
    ∧ (QuestionsService.filtered "popular" s questions).Sorted (descBy QuestionRow.LikesNb)
    ∧ List.Perm (QuestionsService.filtered "popular" s questions) (questionsFetch s questions)
    ∧ (QuestionsService.filtered "recent" s questions).Sorted (descBy QuestionRow.CreatedAt)
    ∧ List.Perm (QuestionsService.filtered "recent" s questions) (questionsFetch s questions)
    ∧ (QuestionsService.filtered "name" s questions).Sorted (ascBy QuestionRow.Title)
    ∧ List.Perm (QuestionsService.filtered "name" s questions) (questionsFetch s questions)
    ∧ (QuestionsService.filtered "old" s questions).Sorted (ascBy QuestionRow.CreatedAt)
    ∧ List.Perm (QuestionsService.filtered "old" s questions) (questionsFetch s questions)
    ∧ EventsService.filtered "all" s events = eventsFetch s events
    ∧ (EventsService.filtered "popular" s events).Sorted (descBy EventRow.LikesNB)
    ∧ List.Perm (EventsService.filtered "popular" s events) (eventsFetch s events)
    ∧ (EventsService.filtered "recent" s events).Sorted (descBy EventRow.Date)
    ∧ List.Perm (EventsService.filtered "recent" s events) (eventsFetch s events)
    ∧ (EventsService.filtered "name" s events).Sorted (ascBy EventRow.Title)
    ∧ List.Perm (EventsService.filtered "name" s events) (eventsFetch s events)
    ∧ (EventsService.filtered "old" s events).Sorted (ascBy EventRow.Date)
    ∧ List.Perm (EventsService.filtered "old" s events) (eventsFetch s events)
    ∧ RepliesService.filteredForTopic "all" TopicID replies = repliesFetchForTopic TopicID replies
    ∧ (RepliesService.filteredForTopic "popular" TopicID replies).Sorted (descBy ReplyRow.LikesNB)
    ∧ List.Perm (RepliesService.filteredForTopic "popular" TopicID replies) (repliesFetchForTopic TopicID replies)
    ∧ (RepliesService.filteredForTopic "recent" TopicID replies).Sorted (descBy ReplyRow.CreatedAt)
    ∧ List.Perm (RepliesService.filteredForTopic "recent" TopicID replies) (repliesFetchForTopic TopicID replies)
    ∧ (RepliesService.filteredForTopic "name" TopicID replies).Sorted (ascBy ReplyRow.Content)
    ∧ List.Perm (RepliesService.filteredForTopic "name" TopicID replies) (repliesFetchForTopic TopicID replies)
    ∧ (RepliesService.filteredForTopic "old" TopicID replies).Sorted (ascBy ReplyRow.CreatedAt)
    ∧ List.Perm (RepliesService.filteredForTopic "old" TopicID replies) (repliesFetchForTopic TopicID replies)
    ∧ RepliesService.filteredForQuestion "all" QuestionID replies = repliesFetchForQuestion QuestionID replies
    ∧ (RepliesService.filteredForQuestion "popular" QuestionID replies).Sorted (descBy ReplyRow.LikesNB)
    ∧ List.Perm (RepliesService.filteredForQuestion "popular" QuestionID replies) (repliesFetchForQuestion QuestionID replies)
    ∧ (RepliesService.filteredForQuestion "recent" QuestionID replies).Sorted (descBy ReplyRow.CreatedAt)
    ∧ List.Perm (RepliesService.filteredForQuestion "recent" QuestionID replies) (repliesFetchForQuestion QuestionID replies)
    ∧ (RepliesService.filteredForQuestion "name" QuestionID replies).Sorted (ascBy ReplyRow.Content)
    ∧ List.Perm (RepliesService.filteredForQuestion "name" QuestionID replies) (repliesFetchForQuestion QuestionID replies)
    ∧ (RepliesService.filteredForQuestion "old" QuestionID replies).Sorted (ascBy ReplyRow.CreatedAt)
    ∧ List.Perm (RepliesService.filteredForQuestion "old" QuestionID replies) (repliesFetchForQuestion QuestionID replies) := by
  repeat' apply And.intro
  all_goals
    first
      | (simp [DiscussionsService.filtered, QuestionsService.filtered, EventsService.filtered,
               RepliesService.filteredForTopic, RepliesService.filteredForQuestion]
         done)
      | (simp only [DiscussionsService.filtered, QuestionsService.filtered, EventsService.filtered,
               RepliesService.filteredForTopic, RepliesService.filteredForQuestion]
         norm_num
         first
           | exact List.sorted_insertionSort _ _
           | exact List.perm_insertionSort _ _)

/-- C4: login with a missing field replies BadRequest for every store - the
result does not depend on the user table, so no lookup can have influenced
it; an unknown email replies NotFound; an existing user with a failing
password comparison replies Unauthorized. -/
theorem C4_login_error_paths (compareFn : String → String → Option Bool) (now duration : Int)
    (users : List UserRow) (Email Password : Option String) :
    ((falsyStr Email || falsyStr Password) = true →
       AuthService.login compareFn now duration users Email Password
         = .error (.badRequest "Missing Data"))
    ∧ ((falsyStr Email || falsyStr Password) = false →
       users.find? (fun u => u.Email == Email.getD "") = none →
       AuthService.login compareFn now duration users Email Password
         = .error (.notFound "User does not exist"))
    ∧ (∀ user, (falsyStr Email || falsyStr Password) = false →
       users.find? (fun u => u.Email == Email.getD "") = some user →
       compareFn (Password.getD "") user.Password = some false →
       AuthService.login compareFn now duration users Email Password
         = .error (.unauthorized "Cannot login with these credentials")) := by
  refine ⟨fun h => ?_, fun h h2 => ?_, fun user h h2 h3 => ?_⟩
  · simp [AuthService.login, h]
  · simp [AuthService.login, h, h2]
  · simp [AuthService.login, h, h2, h3]

/-- Witness for C4 at concrete inputs on each of the three error paths. -/
theorem C4_login_error_paths_witness :
    AuthService.login (fun _ _ => some true) 0 0 [userSample] none (some "p")
      = .error (.badRequest "Missing Data")
    ∧ AuthService.login (fun _ _ => some true) 0 0 [] (some "x@y.z") (some "p")
      = .error (.notFound "User does not exist")
    ∧ AuthService.login (fun _ _ => some false) 0 0 [userSample] (some "a@b.c") (some "p")
      = .error (.unauthorized "Cannot login with these credentials") :=
  ⟨(C4_login_error_paths (fun _ _ => some true) 0 0 [userSample] none (some "p")).1 (by decide),
   (C4_login_error_paths (fun _ _ => some true) 0 0 [] (some "x@y.z") (some "p")).2.1 (by decide) rfl,
   (C4_login_error_paths (fun _ _ => some false) 0 0 [userSample] (some "a@b.c") (some "p")).2.2
     userSample (by decide) (by decide) rfl⟩

/-- C8: every successful login hands jwtService.signAsync an expiresIn equal
to Date.now() plus the configured duration - an absolute timestamp where the
library expects a relative one - and a payload holding the ID of the user as
sub and the email of the user. -/
theorem C8_token_sign_args (compareFn : String → String → Option Bool) (now duration : Int)
    (users : List UserRow) (Email Password : Option String) (s : SignArgs) (user : UserRow) :
    AuthService.login compareFn now duration users Email Password = .ok (s, user) →
    s.expiresIn = now + duration ∧ s.sub = user.UserID ∧ s.email = user.Email := by
  intro h
  unfold AuthService.login at h
  split at h
  · simp at h
  split at h
  · simp at h
  split at h
  · simp at h
  · simp at h
  · rw [Except.ok.injEq, Prod.mk.injEq] at h
    obtain ⟨hs, hu⟩ := h
    subst hu
    subst hs
    exact ⟨rfl, rfl, rfl⟩

/-- Witness for C8: a concrete successful login. -/
theorem C8_token_sign_args_witness :
    ({ sub := 3, email := "a@b.c", expiresIn := 12 } : SignArgs).expiresIn = 5 + 7
    ∧ ({ sub := 3, email := "a@b.c", expiresIn := 12 } : SignArgs).sub = userSample.UserID
    ∧ ({ sub := 3, email := "a@b.c", expiresIn := 12 } : SignArgs).email = userSample.Email :=
  C8_token_sign_args (fun _ _ => some true) 5 7 [userSample] (some "a@b.c") (some "p")
    { sub := 3, email := "a@b.c", expiresIn := 12 } userSample (by decide)

/-- C9: a reply created through createForTopic references its topic and no
question, and one created through createForQuestion references its question
and no topic - every reachable reply row has exactly one target set. -/
theorem C9_reply_single_target (dto : CreateReplyDto) (table : List ReplyRow) (newId : Nat)
    (row : ReplyRow) (table2 : List ReplyRow) :
    (RepliesService.createForTopic dto table newId = .ok (row, table2) →
       row.TopicID = some (dto.TargetID.getD 0) ∧ row.QuestionID = none)
    ∧ (RepliesService.createForQuestion dto table newId = .ok (row, table2) →
       row.QuestionID = some (dto.TargetID.getD 0) ∧ row.TopicID = none) := by
  refine ⟨fun h => ?_, fun h => ?_⟩
  · unfold RepliesService.createForTopic at h
    split at h
    · simp at h
    · rw [Except.ok.injEq, Prod.mk.injEq] at h
      obtain ⟨hrow, -⟩ := h
      subst hrow
      exact ⟨rfl, rfl⟩
  · unfold RepliesService.createForQuestion at h
    split at h
    · simp at h
    · rw [Except.ok.injEq, Prod.mk.injEq] at h
      obtain ⟨hrow, -⟩ := h
      subst hrow
      exact ⟨rfl, rfl⟩

/-- Witness for C9: both creation paths at a concrete body. -/
theorem C9_reply_single_target_witness :
    (replyRowTopicSample.TopicID = some (replyDtoSample.TargetID.getD 0)
      ∧ replyRowTopicSample.QuestionID = none)
    ∧ (replyRowQuestionSample.QuestionID = some (replyDtoSample.TargetID.getD 0)
      ∧ replyRowQuestionSample.TopicID = none) :=
  ⟨(C9_reply_single_target replyDtoSample [] 1 replyRowTopicSample [replyRowTopicSample]).1
     (by decide),
   (C9_reply_single_target replyDtoSample [] 1 replyRowQuestionSample [replyRowQuestionSample]).2
     (by decide)⟩

/-- C10: signup replies BadRequest Missing Data exactly when Email or
Password is falsy; with both present a body missing FirstName or LastName is
not rejected at this validation boundary and proceeds to the email-uniqueness
lookup: a taken email replies Unauthorized Email exists whatever the name
fields hold, and with a fresh email the create runs - succeeding when both
names are present and failing with InternalServerError (the NOT NULL
columns) when one is absent, never with BadRequest. -/
theorem C10_signup_validation (hashFn : String → String) (users : List UserRow)
    (newId : Nat) (dto : CreateUserDto) :
    (AuthService.signup hashFn users newId dto = .error (.badRequest "Missing Data")
       ↔ (falsyStr dto.Email || falsyStr dto.Password) = true)
    ∧ ((falsyStr dto.Email || falsyStr dto.Password) = false →
       (∀ u, users.find? (fun v => v.Email == dto.Email.getD "") = some u →
          AuthService.signup hashFn users newId dto = .error (.unauthorized "Email exists"))
       ∧ (users.find? (fun v => v.Email == dto.Email.getD "") = none →
          (∀ f l, dto.FirstName = some f → dto.LastName = some l →
             AuthService.signup hashFn users newId dto
               = .ok { UserID := newId, FirstName := f, LastName := l,
                       Email := dto.Email.getD "",
                       Password := hashFn (dto.Password.getD "") })
          ∧ (dto.FirstName = none ∨ dto.LastName = none →
             AuthService.signup hashFn users newId dto
               = .error (.internalError "Internal Server Error")))) := by
  constructor
  · by_cases hm : (falsyStr dto.Email || falsyStr dto.Password) = true
    · simp [AuthService.signup, hm]
    · have hm' : (falsyStr dto.Email || falsyStr dto.Password) = false := by
        simpa using hm
      cases hfind : users.find? (fun v => v.Email == dto.Email.getD "") with
      | none =>
        cases hF : dto.FirstName with
        | none => simp [AuthService.signup, hm', hfind, usersCreate, catchAll, hF]
        | some f =>
          cases hL : dto.LastName with
          | none => simp [AuthService.signup, hm', hfind, usersCreate, catchAll, hF, hL]
          | some l => simp [AuthService.signup, hm', hfind, usersCreate, catchAll, hF, hL]
      | some u => simp [AuthService.signup, hm', hfind]
  · intro hf
    refine ⟨fun u hu => ?_, fun hn => ⟨fun f l hF hL => ?_, fun hmiss => ?_⟩⟩
    · simp [AuthService.signup, hf, hu]
    · simp [AuthService.signup, hf, hn, hF, hL, usersCreate, catchAll]
    · rcases hmiss with hF | hL
      · simp [AuthService.signup, hf, hn, hF, usersCreate, catchAll]
      · cases hF : dto.FirstName with
        | none => simp [AuthService.signup, hf, hn, hF, usersCreate, catchAll]
        | some f => simp [AuthService.signup, hf, hn, hF, hL, usersCreate, catchAll]

/-- Witness for C10: a body missing the email is rejected at the boundary; a
body with both names missing still reaches the lookup - replying Email
exists on a taken email, and InternalServerError from the failed create on a
fresh one - and a complete body signs up. -/
theorem C10_signup_validation_witness :
    AuthService.signup (fun p => p) [] 9
        { FirstName := some "A", LastName := some "B", Email := none, Password := some "pw" }
      = .error (.badRequest "Missing Data")
    ∧ AuthService.signup (fun p => p) [userSample] 9
        { FirstName := none, LastName := none, Email := some "a@b.c", Password := some "pw" }
      = .error (.unauthorized "Email exists")
    ∧ AuthService.signup (fun p => p) [] 9
        { FirstName := none, LastName := none, Email := some "e@f.g", Password := some "pw" }
      = .error (.internalError "Internal Server Error")
    ∧ AuthService.signup (fun p => p) [] 9
        { FirstName := some "A", LastName := some "B", Email := some "e@f.g", Password := some "pw" }
      = .ok { UserID := 9, FirstName := "A", LastName := "B", Email := "e@f.g", Password := "pw" } :=
  ⟨(C10_signup_validation (fun p => p) [] 9
      { FirstName := some "A", LastName := some "B", Email := none, Password := some "pw" }).1.mpr
      (by decide),
   ((C10_signup_validation (fun p => p) [userSample] 9
      { FirstName := none, LastName := none, Email := some "a@b.c", Password := some "pw" }).2
      (by decide)).1 userSample (by decide),
   (((C10_signup_validation (fun p => p) [] 9
      { FirstName := none, LastName := none, Email := some "e@f.g", Password := some "pw" }).2
      (by decide)).2 rfl).2 (Or.inl rfl),
   (((C10_signup_validation (fun p => p) [] 9
      { FirstName := some "A", LastName := some "B", Email := some "e@f.g", Password := some "pw" }).2
      (by decide)).2 rfl).1 "A" "B" rfl rfl⟩

/-- C5: like performs the counter increment first and the join-row insert
second; a failure of either write surfaces as InternalError; a failing
insert leaves the increment in place with the join table untouched, so no
matching join row exists when none did before; when both writes go through,
the state carries the incremented counter and the new join row.  Stated for
likeTopic and likeQuestion. -/
theorem C5_like_counter_then_join (fU fI : Bool) (st : DbState) (t q u : Nat) :
    (∀ e st2, DiscussionsService.likeTopic fU fI st t u = (.error e, st2) →
       e = .internalError "Internal Server Error")
    ∧ (topicsIncrement fU st.topics t 1 = none →
       DiscussionsService.likeTopic fU fI st t u
         = (.error (.internalError "Internal Server Error"), st))
    ∧ (∀ topics1, topicsIncrement fU st.topics t 1 = some topics1 →
       likesCreateTopic fI st.likes t u = none →
       DiscussionsService.likeTopic fU fI st t u
         = (.error (.internalError "Internal Server Error"), { st with topics := topics1 }))
    ∧ (∀ topics1, topicsIncrement fU st.topics t 1 = some topics1 →
       likesCreateTopic fI st.likes t u = none →
       st.likes.any (isTopicLike t u) = false →
       ((DiscussionsService.likeTopic fU fI st t u).2).likes.any (isTopicLike t u) = false)
    ∧ (∀ topics1 likes1, topicsIncrement fU st.topics t 1 = some topics1 →
       likesCreateTopic fI st.likes t u = some likes1 →
       DiscussionsService.likeTopic fU fI st t u
         = (.ok (), { st with topics := topics1, likes := likes1 }))
    ∧ (∀ e st2, QuestionsService.likeQuestion fU fI st q u = (.error e, st2) →
       e = .internalError "Internal Server Error")
    ∧ (questionsIncrement fU st.questions q 1 = none →
       QuestionsService.likeQuestion fU fI st q u
         = (.error (.internalError "Internal Server Error"), st))
    ∧ (∀ questions1, questionsIncrement fU st.questions q 1 = some questions1 →
       likesCreateQuestion fI st.likes q u = none →
       QuestionsService.likeQuestion fU fI st q u
         = (.error (.internalError "Internal Server Error"), { st with questions := questions1 }))
    ∧ (∀ questions1, questionsIncrement fU st.questions q 1 = some questions1 →
       likesCreateQuestion fI st.likes q u = none →
       st.likes.any (isQuestionLike q u) = false →
       ((QuestionsService.likeQuestion fU fI st q u).2).likes.any (isQuestionLike q u) = false)
    ∧ (∀ questions1 likes1, questionsIncrement fU st.questions q 1 = some questions1 →
       likesCreateQuestion fI st.likes q u = some likes1 →
       QuestionsService.likeQuestion fU fI st q u
         = (.ok (), { st with questions := questions1, likes := likes1 })) := by
  refine ⟨fun e st2 h => ?_, fun h1 => ?_, fun topics1 h1 h2 => ?_, fun topics1 h1 h2 h3 => ?_,
          fun topics1 likes1 h1 h2 => ?_,
          fun e st2 h => ?_, fun h1 => ?_, fun questions1 h1 h2 => ?_,
          fun questions1 h1 h2 h3 => ?_, fun questions1 likes1 h1 h2 => ?_⟩
  · unfold DiscussionsService.likeTopic at h
    split at h
    · simp only [Prod.mk.injEq, Except.error.injEq] at h
      exact h.1.symm
    · split at h
      · simp only [Prod.mk.injEq, Except.error.injEq] at h
        exact h.1.symm
      · simp at h
  · simp [DiscussionsService.likeTopic, h1]
  · simp [DiscussionsService.likeTopic, h1, h2]
  · simp [DiscussionsService.likeTopic, h1, h2, h3]
  · simp [DiscussionsService.likeTopic, h1, h2]
  · unfold QuestionsService.likeQuestion at h
    split at h
    · simp only [Prod.mk.injEq, Except.error.injEq] at h
      exact h.1.symm
    · split at h
      · simp only [Prod.mk.injEq, Except.error.injEq] at h
        exact h.1.symm
      · simp at h
  · simp [QuestionsService.likeQuestion, h1]
  · simp [QuestionsService.likeQuestion, h1, h2]
  · simp [QuestionsService.likeQuestion, h1, h2, h3]
  · simp [QuestionsService.likeQuestion, h1, h2]

/-- Witness for C5: on the sample state, an injected insert failure leaves
the counter at 1 with no join row, and the fully successful case writes
both. -/
theorem C5_like_counter_then_join_witness :
    DiscussionsService.likeTopic false true sampleDb 1 2
      = (.error (.internalError "Internal Server Error"),
         { sampleDb with topics := [{ topicSample with LikesNb := 1 }] })
    ∧ ((DiscussionsService.likeTopic false true sampleDb 1 2).2).likes.any (isTopicLike 1 2) = false
    ∧ DiscussionsService.likeTopic false false sampleDb 1 2
      = (.ok (),
         { sampleDb with
             topics := [{ topicSample with LikesNb := 1 }]
             likes := [likeRowTopic 1 2] })
    ∧ QuestionsService.likeQuestion false false sampleDb 1 2
      = (.ok (),
         { sampleDb with
             questions := [{ questionSample with LikesNb := 1 }]
             likes := [likeRowQuestion 1 2] }) :=
  ⟨(C5_like_counter_then_join false true sampleDb 1 1 2).2.2.1
     [{ topicSample with LikesNb := 1 }] (by decide) (by decide),
   (C5_like_counter_then_join false true sampleDb 1 1 2).2.2.2.1
     [{ topicSample with LikesNb := 1 }] (by decide) (by decide) (by decide),
   (C5_like_counter_then_join false false sampleDb 1 1 2).2.2.2.2.1
     [{ topicSample with LikesNb := 1 }] [likeRowTopic 1 2] (by decide) (by decide),
   (C5_like_counter_then_join false false sampleDb 1 1 2).2.2.2.2.2.2.2.2.2
     [{ questionSample with LikesNb := 1 }] [likeRowQuestion 1 2] (by decide) (by decide)⟩

/-- Incrementing and then decrementing the counter of a topic present in the
table restores the table. -/
theorem topicsIncrement_restore (topics : List TopicRow) (t : Nat)
    (h : topics.any (fun r => r.TopicID == t) = true) :
    topicsIncrement false
      (topics.map (fun r => if r.TopicID == t then { r with LikesNb := r.LikesNb + 1 } else r))
      t (-1) = some topics := by
  have hkey : ∀ r : TopicRow,
      ((if r.TopicID == t then { r with LikesNb := r.LikesNb + 1 } else r).TopicID == t)
        = (r.TopicID == t) := by
    intro r
    by_cases hr : r.TopicID == t <;> simp [hr]
  have hany : (topics.map
        (fun r => if r.TopicID == t then { r with LikesNb := r.LikesNb + 1 } else r)).any
      (fun r => r.TopicID == t) = true := by
    rw [List.any_map]
    have hfun : ((fun r : TopicRow => r.TopicID == t) ∘
        (fun r => if r.TopicID == t then { r with LikesNb := r.LikesNb + 1 } else r))
          = fun r : TopicRow => r.TopicID == t := by
      funext r
      simpa [Function.comp] using hkey r
    rw [hfun]
    exact h
  simp only [topicsIncrement, hany, Bool.false_eq_true, if_false, if_true]
  rw [List.map_map]
  conv_rhs => rw [← List.map_id topics]
  refine congrArg some (List.map_congr_left (fun r _ => ?_))
  by_cases hr : r.TopicID == t
  · simp [Function.comp, hr, add_neg_cancel_right]
  · simp [Function.comp, hr]

/-- Deleting the unique pair just appended to a table that held no such pair
restores the table. -/
theorem likesDeleteTopic_append (likes : List LikeRow) (row : LikeRow) (t u : Nat)
    (hFresh : likes.any (isTopicLike t u) = false) (hRow : isTopicLike t u row = true) :
    likesDeleteTopic (likes ++ [row]) t u = some likes := by
  induction likes with
  | nil => simp [likesDeleteTopic, hRow]
  | cons r rest ih =>
    rw [List.any_cons, Bool.or_eq_false_iff] at hFresh
    rw [List.cons_append]
    simp only [likesDeleteTopic, hFresh.1, Bool.false_eq_true, if_false]
    rw [ih hFresh.2]
    rfl

/-- Evaluation of unlikeTopic when both writes go through. -/
theorem unlikeTopic_eval (topicsX : List TopicRow) (qs : List QuestionRow)
    (likesX : List LikeRow) (t u : Nat) (topics2 : List TopicRow) (likes2 : List LikeRow)
    (h1 : topicsIncrement false topicsX t (-1) = some topics2)
    (h2 : likesDeleteTopic likesX t u = some likes2) :
    DiscussionsService.unlikeTopic false false
        { topics := topicsX, questions := qs, likes := likesX } t u
      = (.ok (), { topics := topics2, questions := qs, likes := likes2 }) := by
  simp [DiscussionsService.unlikeTopic, h1, h2]

/-- C6: like then unlike on the same pair over an existing topic and a fresh
pair, with every write succeeding, restores the database state exactly: the
counter returns to its pre-like value and no join row for the pair
remains. -/
theorem C6_like_unlike_roundtrip (st : DbState) (t u : Nat)
    (hTopic : st.topics.any (fun r => r.TopicID == t) = true)
    (hFresh : st.likes.any (isTopicLike t u) = false) :
    ∃ st1 : DbState,
      DiscussionsService.likeTopic false false st t u = (.ok (), st1)
      ∧ DiscussionsService.unlikeTopic false false st1 t u = (.ok (), st) := by
  refine ⟨{ topics := st.topics.map (fun r => if r.TopicID == t then { r with LikesNb := r.LikesNb + 1 } else r), questions := st.questions, likes := st.likes ++ [likeRowTopic t u] }, ?_, ?_⟩
  · simp [DiscussionsService.likeTopic, topicsIncrement, hTopic, likesCreateTopic, hFresh]
  · exact unlikeTopic_eval _ _ _ t u st.topics st.likes
      (topicsIncrement_restore st.topics t hTopic)
      (likesDeleteTopic_append st.likes (likeRowTopic t u) t u hFresh
        (by simp [isTopicLike, likeRowTopic]))

/-- Witness for C6 on the sample state. -/
theorem C6_like_unlike_roundtrip_witness :
    ∃ st1 : DbState,
      DiscussionsService.likeTopic false false sampleDb 1 2 = (.ok (), st1)
      ∧ DiscussionsService.unlikeTopic false false st1 1 2 = (.ok (), sampleDb) :=
  C6_like_unlike_roundtrip sampleDb 1 2 (by decide) (by decide)

end CSIS279
